import Mathlib

/-! Verification of the vosk-api build orchestrator (`build.py`).

This file shallowly embeds the staged build pipeline of `build.py` and
settles the specification claims about it.

Modelling conventions:

* All external effects (tool probes via `check_command`, subprocess
  outcomes of `subprocess.run`, the filesystem, the inherited process
  environment) are supplied by a `World` oracle, so every pipeline
  function is a pure Lean function of the configuration and the world.
* The mutable interpreter state (`os.environ`, the filesystem, console
  output) is threaded explicitly as a `PState`; console output and
  subprocess invocations are recorded as an append-only `Event` trace.
* Python exceptions are modelled by the `Exc` type: `sys.exit(1)` raised
  by `VoskBuilder.error` is `Exc.systemExit1`, `KeyboardInterrupt` is
  `Exc.keyboardInterrupt`; the `try/except` structure of the source is
  mirrored by the `seqStep` (propagate) and `tryStep` (bare `except:`,
  which in Python catches every `BaseException`) combinators.
* Paths are plain strings; `Path.exists()` is membership in the world's
  finite set of existing paths.
-/

/-- The `--config` choices (argparse restricts to exactly these three). -/
inductive ConfigProfile
  | Debug
  | Release
  | RelWithDebInfo
  deriving DecidableEq, Repr

/-- The `--math-lib` choices (argparse restricts to exactly these three). -/
inductive MathLib
  | openblas
  | mkl
  | auto
  deriving DecidableEq, Repr

/-- The parsed CLI arguments (`argparse` namespace) of `build.py`. -/
structure BuildArgs where
  config : ConfigProfile
  math_lib : MathLib
  cuda : Bool
  use_cmake : Bool
  python : Bool
  java : Bool
  csharp : Bool
  bindings_only : Bool
  wheel : Bool
  install : Bool
  installPrefix : String
  test : Bool
  force : Bool
  verbose : Bool
  clean : Bool

/-- The argparse defaults of `build.py` (`--config Release`, `--math-lib auto`,
`--python` on, prefix `/usr/local`, every other flag off). -/
def defaultArgs : BuildArgs :=
  { config := .Release
    math_lib := .auto
    cuda := false
    use_cmake := false
    python := true
    java := false
    csharp := false
    bindings_only := false
    wheel := false
    install := false
    installPrefix := "/usr/local"
    test := false
    force := false
    verbose := false
    clean := false }

/-- A process environment: a total lookup from variable names to optional
string values (`os.environ` / the `env` dict passed to subprocesses). -/
def EnvMap : Type := String → Option String

/-- Dictionary assignment `env[k] = v` (last write wins). -/
def setVar (e : EnvMap) (k v : String) : EnvMap :=
  fun x => if x = k then some v else e x

/-- Outcome of one `subprocess.run` call, as observed by `run_command`. -/
inductive SubpOutcome
  | success
  | failed
  | notFound
  | interrupted
  deriving DecidableEq, Repr

/-- The external world: everything `build.py` observes outside its own
state.  `toolOk` gives the result of `check_command` probes, `pyImportOk`
the result of `__import__` of a Python package, `run` the outcome of a
`run_command` subprocess keyed by argument vector and working directory. -/
structure World where
  environ : EnvMap
  fs : List String
  toolOk : String → Bool
  pyImportOk : String → Bool
  run : List String → String → SubpOutcome
  repoRoot : String
  repoParent : String
  home : String
  pyExe : String
  cpuCount : Option Nat

/-- Observable events of a run: stage entries, `check_command` probes,
subprocess invocations (tagged with the method that issued them), warning
and error messages, the Kaldi guidance block, success messages, and the
final summary banner. -/
inductive Event
  | stageEnter (name : String)
  | probe (tool : String)
  | ranCmd (stage : String) (cmd : List String) (cwd : String)
  | warned (msg : String)
  | errorMsg (msg : String)
  | guidance
  | successMsg (msg : String)
  | printedSummary
  deriving DecidableEq, Repr

/-- Exceptions of the source: `sys.exit(1)` from `VoskBuilder.error`,
`KeyboardInterrupt`, the (never raised) `BuildError`, and any other
exception. -/
inductive Exc
  | systemExit1
  | keyboardInterrupt
  | buildError (msg : String)
  | otherExc (msg : String)
  deriving DecidableEq, Repr

/-- The interpreter state threaded through the pipeline: the mutable
`os.environ`, the filesystem (set of existing paths), and the event
trace. -/
structure PState where
  environ : EnvMap
  fs : List String
  events : List Event

/-- Append one event to the trace. -/
def PState.emit (s : PState) (e : Event) : PState :=
  { s with events := s.events ++ [e] }

/-- A pipeline step: transforms the state and either returns normally
(`none`) or raises an exception. -/
def Step : Type := PState → PState × Option Exc

/-- Normal return. -/
def stepOk (s : PState) : PState × Option Exc := (s, none)

/-- Model of `VoskBuilder.error`: print the error message and `sys.exit(1)`. -/
def errorStep (s : PState) (msg : String) : PState × Option Exc :=
  (s.emit (.errorMsg msg), some .systemExit1)

/-- Sequencing: run `f` only when the previous step returned normally
(Python control flow: an uncaught exception skips the rest). -/
def seqStep (r : PState × Option Exc) (f : Step) : PState × Option Exc :=
  match r.2 with
  | none => f r.1
  | some e => (r.1, some e)

/-- A bare `except:` block, which in Python catches every `BaseException`
(including `SystemExit` and `KeyboardInterrupt`): on any exception the
handler runs and execution continues normally. -/
def tryStep (r : PState × Option Exc) (onFail : PState → PState) :
    PState × Option Exc :=
  match r.2 with
  | none => (r.1, none)
  | some _ => (onFail r.1, none)

/-- Model of `mkdir(exist_ok=True)`: add a path to the filesystem if absent. -/
def mkdirOne (fs : List String) (p : String) : List String :=
  if fs.contains p then fs else p :: fs

/-- Path `VoskBuilder.build_dir = repo_root / "build"`. -/
def build_dir (w : World) : String := w.repoRoot ++ "/build"

/-- Path `VoskBuilder.src_dir = repo_root / "src"`. -/
def src_dir (w : World) : String := w.repoRoot ++ "/src"

/-- Model of `VoskBuilder.run_command`: log the invocation, run the subprocess,
and on a nonzero exit (`CalledProcessError`) or a missing executable
(`FileNotFoundError`) call `error` (which exits with code 1).  A
`KeyboardInterrupt` during the blocking call propagates. -/
def run_command (w : World) (stage : String) (cmd : List String)
    (cwd : String) (s : PState) : PState × Option Exc :=
  let s := s.emit (.ranCmd stage cmd cwd)
  match w.run cmd cwd with
  | .success => stepOk s
  | .failed => errorStep s ("Command failed: " ++ String.intercalate " " cmd)
  | .notFound => errorStep s ("Command not found: " ++ cmd.headD "")
  | .interrupted => (s, some .keyboardInterrupt)

/-- The static required-tool table of `check_dependencies`. -/
def required_tools : List (String × String) :=
  [("cmake", "CMake (required for building)"),
   ("make", "Make (required for building)"),
   ("g++", "G++ compiler (required for C++ compilation)"),
   ("python3", "Python 3 (required for Python bindings)"),
   ("git", "Git (required for downloading dependencies)")]

/-- The loop of `check_dependencies` over `required_tools`: probe every
tool, log found ones, and collect a `"tool - description"` line for each
missing one (in table order). -/
def probeTools (w : World) : List (String × String) → PState →
    PState × List String
  | [], s => (s, [])
  | td :: rest, s =>
    let s := s.emit (.probe td.1)
    if w.toolOk td.1 then
      probeTools w rest (s.emit (.successMsg ("✓ " ++ td.1 ++ " found")))
    else
      let r := probeTools w rest s
      (r.1, (td.1 ++ " - " ++ td.2) :: r.2)

/-- The aggregated error text built by `check_dependencies` from the
collected missing-tool lines. -/
def depErrorMsg (missing : List String) : String :=
  "Missing required dependencies:\n" ++
    String.intercalate "\n" (missing.map (fun t => "  - " ++ t)) ++
    "\n\nPlease install the missing dependencies and try again."

/-- The Python packages auto-installed for Python bindings. -/
def python_packages : List String := ["cffi", "setuptools", "wheel"]

/-- The package loop of `check_dependencies`: import each package, and on
`ImportError` run `pip install` (whose failure is fatal via
`run_command`). -/
def installPackages (w : World) : List String → Step
  | [] => stepOk
  | p :: rest => fun s =>
    if w.pyImportOk p then
      installPackages w rest
        (s.emit (.successMsg ("✓ Python package " ++ p ++ " found")))
    else
      seqStep
        (run_command w "check_dependencies"
          [w.pyExe, "-m", "pip", "install", p] w.repoRoot s)
        (installPackages w rest)

/-- Model of `VoskBuilder.check_dependencies`: probe all required tools, fail
fatally with one aggregated report when any is missing, then check (and
auto-install) the Python packages when Python bindings are requested. -/
def check_dependencies (w : World) (args : BuildArgs) : Step := fun s =>
  let s := s.emit (.stageEnter "check_dependencies")
  let pr := probeTools w required_tools s
  if pr.2 ≠ [] then
    errorStep pr.1 (depErrorMsg pr.2)
  else
    seqStep
      (if args.python then installPackages w python_packages pr.1
       else stepOk pr.1)
      (fun s => stepOk (s.emit (.successMsg "All dependencies are available")))

/-- The common Kaldi search locations of `setup_kaldi_environment`:
`repo_root.parent/kaldi`, `~/kaldi`, `~/travis/kaldi`, `/opt/kaldi`,
`/usr/local/kaldi`. -/
def common_kaldi_paths (w : World) : List String :=
  [w.repoParent ++ "/kaldi",
   w.home ++ "/kaldi",
   w.home ++ "/travis/kaldi",
   "/opt/kaldi",
   "/usr/local/kaldi"]

/-- The search-list scan: the first common path that exists and contains a
`src` subdirectory. -/
def findKaldi (fs : List String) (paths : List String) : Option String :=
  paths.find? (fun p => fs.contains p && fs.contains (p ++ "/src"))

/-- The not-found tail of `setup_kaldi_environment`: warn, print the
setup-guidance block, then fail fatally unless `--force` is set, in which
case warn again and return `None`. -/
def kaldiNotFound (args : BuildArgs) (s : PState) : PState × Option Exc :=
  let s := (s.emit (.warned "Kaldi not found. Please set up Kaldi:")).emit .guidance
  if !args.force then
    errorStep s
      "Kaldi is required for building vosk-api. Use --force to continue without Kaldi (for binding-only builds)."
  else
    stepOk (s.emit (.warned "Continuing without Kaldi (--force enabled)"))

/-- The search-list part of `setup_kaldi_environment`: on a hit, set
`os.environ[KALDI_ROOT]` (a process-environment side effect) and return;
otherwise fall through to `kaldiNotFound`. -/
def kaldiSearchCommon (w : World) (args : BuildArgs) (s : PState) :
    PState × Option Exc :=
  match findKaldi s.fs (common_kaldi_paths w) with
  | some p =>
    stepOk
      ({ s with environ := setVar s.environ "KALDI_ROOT" p }.emit
        (.successMsg ("Found Kaldi installation at " ++ p)))
  | none => kaldiNotFound args s

/-- Model of `VoskBuilder.setup_kaldi_environment`: accept `KALDI_ROOT` when it is
a nonempty value naming an existing path (existence only, no structural
check), otherwise scan the common locations (existence plus a `src`
subdirectory), otherwise emit guidance and fail or degrade per
`--force`. -/
def setup_kaldi_environment (w : World) (args : BuildArgs) : Step := fun s =>
  let s := s.emit (.stageEnter "setup_kaldi_environment")
  match s.environ "KALDI_ROOT" with
  | some kr =>
    if kr ≠ "" && s.fs.contains kr then
      stepOk (s.emit (.successMsg ("Using existing Kaldi installation at " ++ kr)))
    else
      kaldiSearchCommon w args s
  | none => kaldiSearchCommon w args s

/-- The environment-variable synthesis of `setup_build_environment`:
start from a copy of `os.environ` and overlay the configuration-derived
entries, in source order. -/
def synthEnv (args : BuildArgs) (base : EnvMap) : EnvMap :=
  let env := base
  let env :=
    match args.config with
    | .Release => setVar (setVar env "CMAKE_BUILD_TYPE" "Release") "EXTRA_CFLAGS" "-O3 -DNDEBUG"
    | .Debug => setVar (setVar env "CMAKE_BUILD_TYPE" "Debug") "EXTRA_CFLAGS" "-g -O0"
    | .RelWithDebInfo => setVar (setVar env "CMAKE_BUILD_TYPE" "RelWithDebInfo") "EXTRA_CFLAGS" "-O2 -g"
  let env :=
    match args.math_lib with
    | .openblas => setVar (setVar env "HAVE_OPENBLAS_CLAPACK" "1") "HAVE_MKL" "0"
    | .mkl => setVar (setVar env "HAVE_MKL" "1") "HAVE_OPENBLAS_CLAPACK" "0"
    | .auto => env
  setVar env "HAVE_CUDA" (if args.cuda then "1" else "0")

/-- Model of `VoskBuilder.setup_build_environment`: create the build directory
(`mkdir(exist_ok=True)` — a filesystem side effect), then return the
synthesized environment built from a copy of the current `os.environ`.
Never raises. -/
def setup_build_environment (w : World) (args : BuildArgs) (s : PState) :
    PState × EnvMap :=
  let s := s.emit (.stageEnter "setup_build_environment")
  let s := { s with fs := mkdirOne s.fs (build_dir w) }
  (s, synthEnv args s.environ)

/-- Model of `VoskBuilder.build_with_cmake`: configure, then build, two sequential
subprocess calls (the second never runs if the first fails, because the
first failure exits). -/
def build_with_cmake (w : World) (args : BuildArgs) (env : EnvMap) (s : PState) :
    PState × Option Exc :=
  let base :=
    ["cmake", "-B", build_dir w, "-S", w.repoRoot,
     "-DCMAKE_BUILD_TYPE=" ++ (env "CMAKE_BUILD_TYPE").getD "Release"]
  let cmake_args :=
    if args.installPrefix ≠ "" then
      base ++ ["-DCMAKE_INSTALL_PREFIX", args.installPrefix]
    else base
  seqStep (run_command w "build_cpp_library" cmake_args w.repoRoot s)
    (run_command w "build_cpp_library"
      ["cmake", "--build", build_dir w, "--parallel"] w.repoRoot)

/-- Model of `VoskBuilder.build_with_make`: one `make -j N` call in the native
source directory, `N` from the CPU count with fallback 4, plus `V=1` when
verbose. -/
def build_with_make (w : World) (args : BuildArgs) (s : PState) :
    PState × Option Exc :=
  let make_args :=
    ["make", "-j", toString (w.cpuCount.getD 4)] ++
      (if args.verbose then ["V=1"] else [])
  run_command w "build_cpp_library" make_args (src_dir w) s

/-- Model of `VoskBuilder.build_cpp_library`: dispatch on the backend strategy. -/
def build_cpp_library (w : World) (args : BuildArgs) (env : EnvMap) : Step :=
  fun s =>
    let s := s.emit (.stageEnter "build_cpp_library")
    if args.use_cmake then build_with_cmake w args env s
    else build_with_make w args s

/-- Model of `VoskBuilder.build_python_bindings`: skip when Python bindings are
not requested; otherwise build the CFFI module, then either build a wheel
or pip-install in development mode.  Every subprocess failure is fatal
via `run_command` (no `--force` consultation anywhere on this path). -/
def build_python_bindings (w : World) (args : BuildArgs) : Step := fun s =>
  if !args.python then stepOk s
  else
    let s := s.emit (.stageEnter "build_python_bindings")
    let python_dir := w.repoRoot ++ "/python"
    seqStep
      (run_command w "build_python_bindings" [w.pyExe, "vosk_builder.py"]
        python_dir s)
      (fun s =>
        if args.wheel then
          run_command w "build_python_bindings"
            [w.pyExe, "setup.py", "bdist_wheel"] python_dir s
        else
          run_command w "build_python_bindings"
            [w.pyExe, "-m", "pip", "install", "-e", "."] python_dir s)

/-- Model of `VoskBuilder.build_java_bindings`: skip when not requested; a missing
`javac` or `jar` is a warning and the binding is skipped; otherwise run
`make`, whose nonzero exit is fatal via `run_command`. -/
def build_java_bindings (w : World) (args : BuildArgs) : Step := fun s =>
  if !args.java then stepOk s
  else
    let s := s.emit (.stageEnter "build_java_bindings")
    let s := s.emit (.probe "javac")
    if !w.toolOk "javac" then
      stepOk (s.emit (.warned "Java compiler not found. Skipping Java bindings."))
    else
      let s := s.emit (.probe "jar")
      if !w.toolOk "jar" then
        stepOk (s.emit (.warned "Java compiler not found. Skipping Java bindings."))
      else
        run_command w "build_java_bindings" ["make"] (w.repoRoot ++ "/java") s

/-- Model of `VoskBuilder.build_csharp_bindings`: skip when not requested; a
missing `dotnet` is a warning and the binding is skipped; otherwise run
`dotnet build`, whose nonzero exit is fatal via `run_command`. -/
def build_csharp_bindings (w : World) (args : BuildArgs) : Step := fun s =>
  if !args.csharp then stepOk s
  else
    let s := s.emit (.stageEnter "build_csharp_bindings")
    let s := s.emit (.probe "dotnet")
    if !w.toolOk "dotnet" then
      stepOk (s.emit (.warned ".NET SDK not found. Skipping C# bindings."))
    else
      run_command w "build_csharp_bindings" ["dotnet", "build"]
        (w.repoRoot ++ "/csharp") s

/-- The "Test C library" block of `run_tests`: if the `c` directory
exists, run `make` there inside a bare `except:` that downgrades every
exception — including the `SystemExit` raised by `run_command`'s `error`
call and any `KeyboardInterrupt` — to a warning; a missing directory is
skipped with no output.  The block never lets an exception escape, so it
is a plain state transformer. -/
def run_tests_c (w : World) (s : PState) : PState :=
  let c_dir := w.repoRoot ++ "/c"
  if s.fs.contains c_dir then
    (tryStep
      (seqStep (run_command w "run_tests" ["make"] c_dir s)
        (fun s => stepOk (s.emit (.successMsg "C tests completed"))))
      (fun s => s.emit (.warned "C tests failed"))).1
  else s

/-- The "Test Python bindings" block of `run_tests`: if Python bindings
are requested and `python/test` exists, run the import smoke check
inside a bare `except:` that downgrades every exception to a warning; a
missing directory is skipped with no output. -/
def run_tests_py (w : World) (args : BuildArgs) (s : PState) : PState :=
  if args.python then
    let python_test_dir := w.repoRoot ++ "/python/test"
    if s.fs.contains python_test_dir then
      (tryStep
        (seqStep
          (run_command w "run_tests"
            [w.pyExe, "-c", "import vosk; print(\x27Python bindings work!\x27)"]
            w.repoRoot s)
          (fun s => stepOk (s.emit (.successMsg "Python tests completed"))))
        (fun s => s.emit (.warned "Python tests failed"))).1
    else s
  else s

/-- Model of `VoskBuilder.run_tests`: when `--test` is set, best-effort run of the
C test block then the Python smoke-check block.  Both blocks swallow all
exceptions, so `run_tests` always returns normally. -/
def run_tests (w : World) (args : BuildArgs) : Step := fun s =>
  if !args.test then stepOk s
  else
    stepOk (run_tests_py w args (run_tests_c w (s.emit (.stageEnter "run_tests"))))

/-- Model of `VoskBuilder.install`: skip when `--install` is not set.  CMake
builds delegate to `cmake --install`; Make builds create
`<prefix>/lib` and `<prefix>/include` and hand-copy the shared libraries
and the public header.  The `.so` copies always succeed (the sources come
from a glob of existing files); a missing `src/vosk_api.h` makes
`shutil.copy2` raise, which surfaces as an ordinary exception. -/
def installStage (w : World) (args : BuildArgs) : Step := fun s =>
  if !args.install then stepOk s
  else
    let s := s.emit (.stageEnter "install")
    if args.use_cmake then
      seqStep
        (run_command w "install" ["cmake", "--install", build_dir w] w.repoRoot s)
        (fun s => stepOk (s.emit (.successMsg "Installation completed")))
    else
      let pfx := if args.installPrefix ≠ "" then args.installPrefix else "/usr/local"
      let s := { s with fs := mkdirOne (mkdirOne s.fs (pfx ++ "/lib")) (pfx ++ "/include") }
      if s.fs.contains (src_dir w ++ "/vosk_api.h") then
        stepOk
          ({ s with fs := mkdirOne s.fs (pfx ++ "/include/vosk_api.h") }.emit
            (.successMsg "Installation completed"))
      else
        (s, some (.otherExc "vosk_api.h not found"))

/-- Model of `VoskBuilder.print_summary`: print the success banner and the
configuration recap.  Always the last stage of a non-fatal run. -/
def print_summary : Step := fun s =>
  stepOk (s.emit .printedSummary)

/-- The tail of the stage sequence of `VoskBuilder.build`, from
environment synthesis (never fails) on: native build (unless
bindings-only) → Python, Java, C# bindings → tests → install → summary.
An exception anywhere skips every later stage. -/
def buildTail (w : World) (args : BuildArgs) : Step := fun s =>
  let se := setup_build_environment w args s
  let r3 :=
    if args.bindings_only then stepOk se.1
    else build_cpp_library w args se.2 se.1
  let r4 := seqStep r3 (build_python_bindings w args)
  let r5 := seqStep r4 (build_java_bindings w args)
  let r6 := seqStep r5 (build_csharp_bindings w args)
  let r7 := seqStep r6 (run_tests w args)
  let r8 := seqStep r7 (installStage w args)
  seqStep r8 print_summary

/-- The stage sequence inside the `try` of `VoskBuilder.build`:
dependencies → Kaldi discovery (unless bindings-only) → the tail above. -/
def buildRun (w : World) (args : BuildArgs) (s0 : PState) :
    PState × Option Exc :=
  seqStep
    (seqStep (check_dependencies w args s0) (fun s =>
      if args.bindings_only then stepOk s
      else setup_kaldi_environment w args s))
    (buildTail w args)

/-- Model of `VoskBuilder.build` with its `except` handlers, as observed by the
operating system: a clean return exits 0 (end of `main`); `BuildError`,
`KeyboardInterrupt` and any other exception are routed through `error`
(exit 1); the `SystemExit` raised by `error` inside a stage propagates
with its code 1. -/
def buildTop (w : World) (args : BuildArgs) (s0 : PState) : PState × Nat :=
  match buildRun w args s0 with
  | (s, none) => (s, 0)
  | (s, some .systemExit1) => (s, 1)
  | (s, some .keyboardInterrupt) =>
    (s.emit (.errorMsg "Build interrupted by user"), 1)
  | (s, some (.buildError m)) => (s.emit (.errorMsg m), 1)
  | (s, some (.otherExc m)) =>
    (s.emit (.errorMsg ("Unexpected error: " ++ m)), 1)

/-- Model of `main`: argparse failure (an invalid `--config` or `--math-lib`
value, modelled as `none`) exits with code 2 before any stage; otherwise
the optional `--clean` removes the build directory subtree and the
builder runs. -/
def mainModel (w : World) (parsed : Option BuildArgs) : PState × Nat :=
  match parsed with
  | none => ({ environ := w.environ, fs := w.fs, events := [] }, 2)
  | some args =>
    let s0 : PState := { environ := w.environ, fs := w.fs, events := [] }
    let s0 :=
      if args.clean then
        { s0 with fs := s0.fs.filter (fun p => !((build_dir w).isPrefixOf p)) }
      else s0
    buildTop w args s0

/-! ## Concrete worlds and configurations used by closed instances -/

/-- The initial interpreter state of a run, as built by `main`. -/
def emptyState (w : World) : PState :=
  { environ := w.environ, fs := w.fs, events := [] }

/-- A host on which every probe, import and subprocess succeeds and
nothing relevant pre-exists on the filesystem. -/
def allGoodWorld : World :=
  { environ := fun _ => none
    fs := []
    toolOk := fun _ => true
    pyImportOk := fun _ => true
    run := fun _ _ => .success
    repoRoot := "/repo"
    repoParent := "/parent"
    home := "/home/u"
    pyExe := "/usr/bin/python3"
    cpuCount := some 8 }

/-- A bindings-only configuration (otherwise the defaults). -/
def argsBindingsOnly : BuildArgs := { defaultArgs with bindings_only := true }

/-- A host on which only the Python CFFI-module build subprocess fails. -/
def worldPyBuildFails : World :=
  { allGoodWorld with
    run := fun cmd _ =>
      if cmd = ["/usr/bin/python3", "vosk_builder.py"] then .failed
      else .success }

/-- A host on which only the Java binding `make` fails. -/
def worldJavaBuildFails : World :=
  { allGoodWorld with
    run := fun cmd cwd =>
      if cmd = ["make"] && cwd = "/repo/java" then .failed else .success }

/-- A host on which only the C# `dotnet build` fails. -/
def worldCsharpBuildFails : World :=
  { allGoodWorld with
    run := fun cmd cwd =>
      if cmd = ["dotnet", "build"] && cwd = "/repo/csharp" then .failed
      else .success }

/-- Bindings-only with `--force`: the configuration under which the spec
predicts a failed Python binding build degrades to a warning. -/
def argsForcePy : BuildArgs :=
  { defaultArgs with bindings_only := true, force := true }

/-- A host whose `c` test directory exists and on which the C-test `make`
receives an interrupt signal; everything else succeeds. -/
def worldInterruptInTests : World :=
  { allGoodWorld with
    fs := ["/repo/c"]
    run := fun cmd cwd =>
      if cmd = ["make"] && cwd = "/repo/c" then .interrupted else .success }

/-- Bindings-only with `--test`. -/
def argsTest : BuildArgs :=
  { defaultArgs with bindings_only := true, test := true }

/-- A host on which the `make` tool is missing. -/
def worldNoMake : World :=
  { allGoodWorld with toolOk := fun t => !(t == "make") }

/-- The collected missing-tool report lines, as a function of the probe
results. -/
def missingLines (w : World) : List String :=
  (required_tools.filter (fun td => !w.toolOk td.1)).map
    (fun td => td.1 ++ " - " ++ td.2)

/-- An openblas + CUDA Release configuration, for the C5 witness. -/
def argsOpenblasCuda : BuildArgs :=
  { defaultArgs with math_lib := .openblas, cuda := true }

/-- A host whose `c` test directory exists and whose C-test `make` exits
nonzero; everything else succeeds. -/
def worldCTestFails : World :=
  { allGoodWorld with
    fs := ["/repo/c"]
    run := fun cmd cwd =>
      if cmd = ["make"] && cwd = "/repo/c" then .failed else .success }

/-- A Java-requested configuration. -/
def argsJava : BuildArgs := { defaultArgs with java := true }

/-- A C#-requested configuration. -/
def argsCsharp : BuildArgs := { defaultArgs with csharp := true }

/-- The stage a trace event is attributable to: stage logs and
subprocess invocations carry their issuing method; other events carry
none. -/
def eventStage : Event → Option String
  | .stageEnter n => some n
  | .ranCmd st _ _ => some st
  | _ => none

/-- An event not attributable to the Toolchain Locator
(`setup_kaldi_environment`) or the Backend Driver (`build_cpp_library`). -/
def nonNativeEvent (e : Event) : Bool :=
  !(eventStage e == some "setup_kaldi_environment" ||
    eventStage e == some "build_cpp_library")

/-- Every event of the trace is non-native. -/
def EventsOk (s : PState) : Prop :=
  ∀ e ∈ s.events, nonNativeEvent e = true

/-- A step that never emits a native-stage event. -/
def KeepsEventsOk (f : Step) : Prop :=
  ∀ s, EventsOk s → EventsOk (f s).1

/-! ## Helper lemmas -/

theorem setVar_same (e : EnvMap) (k v : String) : setVar e k v k = some v := by
  simp [setVar]

theorem setVar_other (e : EnvMap) (k v x : String) (h : x ≠ k) :
    setVar e k v x = e x := by
  simp [setVar, h]

theorem seqStep_of_none (r : PState × Option Exc) (f : Step) (h : r.2 = none) :
    seqStep r f = f r.1 := by
  simp [seqStep, h]

theorem seqStep_of_some (r : PState × Option Exc) (f : Step) (e : Exc)
    (h : r.2 = some e) : seqStep r f = (r.1, some e) := by
  simp [seqStep, h]

theorem seqStep_snd_none (r : PState × Option Exc) (f : Step)
    (h : (seqStep r f).2 = none) : r.2 = none := by
  cases hr : r.2 with
  | none => rfl
  | some e => rw [seqStep_of_some r f e hr] at h; exact absurd h (by simp)

theorem tryStep_snd (r : PState × Option Exc) (f : PState → PState) :
    (tryStep r f).2 = none := by
  cases hr : r.2 <;> simp [tryStep, hr]

theorem PState.emit_events (s : PState) (e : Event) :
    (s.emit e).events = s.events ++ [e] := rfl

theorem mem_emit_of_mem {s : PState} {e : Event} (ev : Event)
    (h : e ∈ s.events) : e ∈ (s.emit ev).events := by
  simp [PState.emit_events]; exact Or.inl h

theorem mem_emit_self (s : PState) (ev : Event) : ev ∈ (s.emit ev).events := by
  simp [PState.emit_events]

theorem PState.emit_environ (s : PState) (e : Event) :
    (s.emit e).environ = s.environ := rfl

theorem PState.emit_fs (s : PState) (e : Event) : (s.emit e).fs = s.fs := rfl

theorem probeTools_snd (w : World) (l : List (String × String)) (s : PState) :
    (probeTools w l s).2 =
      (l.filter (fun td => !w.toolOk td.1)).map (fun td => td.1 ++ " - " ++ td.2) := by
  induction l generalizing s with
  | nil => rfl
  | cons td rest ih =>
    by_cases h : w.toolOk td.1 = true
    · simp [probeTools, h, ih]
    · simp only [Bool.not_eq_true] at h
      simp [probeTools, h, ih]

theorem probeTools_events_mono (w : World) (l : List (String × String))
    (s : PState) (e : Event) (h : e ∈ s.events) :
    e ∈ (probeTools w l s).1.events := by
  induction l generalizing s with
  | nil => exact h
  | cons td rest ih =>
    by_cases ht : w.toolOk td.1 = true
    · simp only [probeTools, ht, if_pos]
      exact ih _ (mem_emit_of_mem _ (mem_emit_of_mem _ h))
    · simp only [Bool.not_eq_true] at ht
      simp only [probeTools, ht, Bool.false_eq_true, if_neg, not_false_iff]
      exact ih _ (mem_emit_of_mem _ h)

theorem probeTools_probes (w : World) (l : List (String × String))
    (s : PState) (td : String × String) (h : td ∈ l) :
    Event.probe td.1 ∈ (probeTools w l s).1.events := by
  induction l generalizing s with
  | nil => cases h
  | cons hd rest ih =>
    rcases List.mem_cons.mp h with rfl | hmem
    · by_cases ht : w.toolOk td.1 = true
      · simp only [probeTools, ht, if_pos]
        exact probeTools_events_mono w rest _ _
          (mem_emit_of_mem _ (mem_emit_self s _))
      · simp only [Bool.not_eq_true] at ht
        simp only [probeTools, ht, Bool.false_eq_true, if_neg, not_false_iff]
        exact probeTools_events_mono w rest _ _ (mem_emit_self s _)
    · by_cases ht : w.toolOk hd.1 = true
      · simp only [probeTools, ht, if_pos]
        exact ih _ hmem
      · simp only [Bool.not_eq_true] at ht
        simp only [probeTools, ht, Bool.false_eq_true, if_neg, not_false_iff]
        exact ih _ hmem

theorem probeTools_events_shape (w : World) (l : List (String × String))
    (s : PState) (e : Event) (h : e ∈ (probeTools w l s).1.events) :
    e ∈ s.events ∨ (∃ t, e = .probe t) ∨ (∃ m, e = .successMsg m) := by
  induction l generalizing s with
  | nil => exact Or.inl h
  | cons td rest ih =>
    by_cases ht : w.toolOk td.1 = true
    · simp only [probeTools, ht, if_pos] at h
      rcases ih _ h with hs | rest
      · simp only [PState.emit_events, List.mem_append, List.mem_singleton] at hs
        rcases hs with (hs | rfl) | rfl
        · exact Or.inl hs
        · exact Or.inr (Or.inl ⟨td.1, rfl⟩)
        · exact Or.inr (Or.inr ⟨_, rfl⟩)
      · exact Or.inr rest
    · simp only [Bool.not_eq_true] at ht
      simp only [probeTools, ht, Bool.false_eq_true, if_neg, not_false_iff] at h
      rcases ih _ h with hs | rest
      · simp only [PState.emit_events, List.mem_append, List.mem_singleton] at hs
        rcases hs with hs | rfl
        · exact Or.inl hs
        · exact Or.inr (Or.inl ⟨td.1, rfl⟩)
      · exact Or.inr rest

theorem missingLines_ne_nil (w : World)
    (h : ∃ td ∈ required_tools, w.toolOk td.1 = false) :
    missingLines w ≠ [] := by
  rcases h with ⟨td, hmem, hmiss⟩
  have : td ∈ required_tools.filter (fun td => !w.toolOk td.1) :=
    List.mem_filter.mpr ⟨hmem, by simp [hmiss]⟩
  exact List.ne_nil_of_mem (List.mem_map_of_mem _ this)

theorem check_dependencies_fail_eq (w : World) (args : BuildArgs) (s : PState)
    (h : ∃ td ∈ required_tools, w.toolOk td.1 = false) :
    check_dependencies w args s =
      errorStep
        (probeTools w required_tools (s.emit (.stageEnter "check_dependencies"))).1
        (depErrorMsg (missingLines w)) := by
  have hm : (probeTools w required_tools
      (s.emit (.stageEnter "check_dependencies"))).2 = missingLines w :=
    probeTools_snd w _ _
  simp only [check_dependencies, hm]
  rw [if_pos (missingLines_ne_nil w h)]

/-! ## Claim C4 -/

/-- C4: for every pattern of missing required tools, `check_dependencies`
probes all five tools, then fails fatally (`sys.exit(1)`) with a single
aggregated report naming every missing tool together with its purpose; it
never stops at the first missing tool. -/
theorem c4_dependency_verifier_aggregates (w : World) (args : BuildArgs)
    (s : PState) (h : ∃ td ∈ required_tools, w.toolOk td.1 = false) :
    (check_dependencies w args s).2 = some .systemExit1 ∧
    (∀ td ∈ required_tools,
      Event.probe td.1 ∈ (check_dependencies w args s).1.events) ∧
    Event.errorMsg (depErrorMsg (missingLines w)) ∈
      (check_dependencies w args s).1.events ∧
    ∀ td ∈ required_tools, w.toolOk td.1 = false →
      (td.1 ++ " - " ++ td.2) ∈ missingLines w := by
  rw [check_dependencies_fail_eq w args s h]
  refine ⟨rfl, ?_, ?_, ?_⟩
  · intro td hm
    exact mem_emit_of_mem _ (probeTools_probes w _ _ td hm)
  · exact mem_emit_self _ _
  · intro td hm hmiss
    exact List.mem_map_of_mem _ (List.mem_filter.mpr ⟨hm, by simp [hmiss]⟩)

/-- Witness for C4: on a host missing only `make`, the verifier exits
fatally, still probes `git` (the last tool of the table), and the report
names `make` with its purpose. -/
theorem c4_dependency_verifier_aggregates_witness :
    (check_dependencies worldNoMake defaultArgs (emptyState worldNoMake)).2 =
      some .systemExit1 ∧
    Event.probe "git" ∈
      (check_dependencies worldNoMake defaultArgs (emptyState worldNoMake)).1.events ∧
    ("make - Make (required for building)") ∈ missingLines worldNoMake := by
  have h := c4_dependency_verifier_aggregates worldNoMake defaultArgs
    (emptyState worldNoMake)
    ⟨("make", "Make (required for building)"), by decide, by decide⟩
  refine ⟨h.1, h.2.1 ("git", "Git (required for downloading dependencies)")
    (by decide), ?_⟩
  exact h.2.2.2 ("make", "Make (required for building)") (by decide) (by decide)

/-! ## Claim C5 -/

/-- C5: the synthesized environment maps the configuration exactly as
specified: build-type and compiler flags per profile, math-library
variables per backend (with `auto` leaving both untouched), and
`HAVE_CUDA` equal to the CUDA flag. -/
theorem c5_environment_mapping (args : BuildArgs) (base : EnvMap) :
    (args.config = .Release →
      synthEnv args base "CMAKE_BUILD_TYPE" = some "Release" ∧
      synthEnv args base "EXTRA_CFLAGS" = some "-O3 -DNDEBUG") ∧
    (args.config = .Debug →
      synthEnv args base "CMAKE_BUILD_TYPE" = some "Debug" ∧
      synthEnv args base "EXTRA_CFLAGS" = some "-g -O0") ∧
    (args.config = .RelWithDebInfo →
      synthEnv args base "CMAKE_BUILD_TYPE" = some "RelWithDebInfo" ∧
      synthEnv args base "EXTRA_CFLAGS" = some "-O2 -g") ∧
    (args.math_lib = .openblas →
      synthEnv args base "HAVE_OPENBLAS_CLAPACK" = some "1" ∧
      synthEnv args base "HAVE_MKL" = some "0") ∧
    (args.math_lib = .mkl →
      synthEnv args base "HAVE_MKL" = some "1" ∧
      synthEnv args base "HAVE_OPENBLAS_CLAPACK" = some "0") ∧
    (args.math_lib = .auto →
      synthEnv args base "HAVE_OPENBLAS_CLAPACK" = base "HAVE_OPENBLAS_CLAPACK" ∧
      synthEnv args base "HAVE_MKL" = base "HAVE_MKL") ∧
    synthEnv args base "HAVE_CUDA" = some (if args.cuda then "1" else "0") := by
  obtain ⟨c, m, cu, rest⟩ := args
  cases c <;> cases m <;> simp [synthEnv, setVar]

/-- Witness for C5 at a concrete configuration and empty base
environment. -/
theorem c5_environment_mapping_witness :
    synthEnv argsOpenblasCuda (fun _ => none) "CMAKE_BUILD_TYPE" = some "Release" ∧
    synthEnv argsOpenblasCuda (fun _ => none) "EXTRA_CFLAGS" = some "-O3 -DNDEBUG" ∧
    synthEnv argsOpenblasCuda (fun _ => none) "HAVE_OPENBLAS_CLAPACK" = some "1" ∧
    synthEnv argsOpenblasCuda (fun _ => none) "HAVE_MKL" = some "0" ∧
    synthEnv argsOpenblasCuda (fun _ => none) "HAVE_CUDA" = some "1" := by
  have h := c5_environment_mapping argsOpenblasCuda (fun _ => none)
  exact ⟨(h.1 rfl).1, (h.1 rfl).2, (h.2.2.2.1 rfl).1, (h.2.2.2.1 rfl).2,
    h.2.2.2.2.2.2⟩

/-! ## Claim C2 -/

/-- Counterexample for C2: `setup_build_environment` is not free of
side effects — on a host where the build directory does not exist, the
call creates it (`mkdir(exist_ok=True)`), an observable state change
outside the returned mapping. -/
theorem c2_environment_synthesizer_counterexample :
    (emptyState allGoodWorld).fs.contains "/repo/build" = false ∧
    ((setup_build_environment allGoodWorld defaultArgs
      (emptyState allGoodWorld)).1.fs.contains "/repo/build") = true := by
  decide

/-- C2 amended: the returned mapping is a deterministic function of the
configuration and the inherited environment (two invocations from states
with the same environment yield identical mappings), but the call is not
side-effect-free: it creates the build directory; it changes nothing
else (environment untouched, trace extended by the stage log only). -/
theorem c2_environment_synthesizer_deterministic (w : World)
    (args : BuildArgs) (s s' : PState) (h : s.environ = s'.environ) :
    (setup_build_environment w args s).2 =
      (setup_build_environment w args s').2 ∧
    (setup_build_environment w args s).1.environ = s.environ ∧
    (setup_build_environment w args s).1.fs = mkdirOne s.fs (build_dir w) ∧
    (setup_build_environment w args s).1.events =
      s.events ++ [.stageEnter "setup_build_environment"] := by
  refine ⟨?_, rfl, rfl, rfl⟩
  simp only [setup_build_environment, PState.emit_environ]
  rw [h]

/-- Witness for C2 (amended): two states sharing the environment but
differing on the filesystem produce the same mapping, and the filesystem
effect is exactly the build-directory creation. -/
theorem c2_environment_synthesizer_deterministic_witness :
    (setup_build_environment allGoodWorld defaultArgs
        (emptyState allGoodWorld)).2 =
      (setup_build_environment allGoodWorld defaultArgs
        { emptyState allGoodWorld with fs := ["/x"] }).2 ∧
    (setup_build_environment allGoodWorld defaultArgs
        (emptyState allGoodWorld)).1.fs =
      mkdirOne (emptyState allGoodWorld).fs (build_dir allGoodWorld) := by
  have h := c2_environment_synthesizer_deterministic allGoodWorld defaultArgs
    (emptyState allGoodWorld) { emptyState allGoodWorld with fs := ["/x"] } rfl
  exact ⟨h.1, h.2.2.1⟩

/-! ## Claim C7 -/

theorem findKaldi_none (fs paths : List String)
    (h : ∀ p ∈ paths,
      ¬(fs.contains p = true ∧ fs.contains (p ++ "/src") = true)) :
    findKaldi fs paths = none := by
  apply List.find?_eq_none.mpr
  intro p hp
  have hnp := h p hp
  simp only [Bool.and_eq_true]
  exact fun hc => hnp hc

theorem setup_kaldi_not_found_eq (w : World) (args : BuildArgs) (s : PState)
    (hkr : ∀ kr, s.environ "KALDI_ROOT" = some kr →
      ¬(kr ≠ "" ∧ s.fs.contains kr = true))
    (hcommon : ∀ p ∈ common_kaldi_paths w,
      ¬(s.fs.contains p = true ∧ s.fs.contains (p ++ "/src") = true)) :
    setup_kaldi_environment w args s =
      kaldiNotFound args (s.emit (.stageEnter "setup_kaldi_environment")) := by
  have hf0 : findKaldi s.fs (common_kaldi_paths w) = none :=
    findKaldi_none s.fs (common_kaldi_paths w) hcommon
  simp only [setup_kaldi_environment, kaldiSearchCommon, PState.emit_environ,
    PState.emit_fs]
  cases hk : s.environ "KALDI_ROOT" with
  | none => simp [hf0]
  | some kr =>
    have h2 := hkr kr hk
    simp only [hf0]
    have hcond : ¬((decide (kr ≠ "") && s.fs.contains kr) = true) := by
      simp only [Bool.and_eq_true, decide_eq_true_eq]
      exact fun hc => h2 hc
    exact if_neg hcond

/-- C7: when the Toolchain Locator finds no Kaldi installation
(`KALDI_ROOT` names no existing path and no common location passes the
`src`-subdirectory sanity check), it prints the setup guidance, then
fails fatally when `--force` is unset, and with `--force` returns the
non-fatal not-configured outcome (a warning, no exception) so the
pipeline proceeds. -/
theorem c7_toolchain_locator_not_found (w : World) (args : BuildArgs)
    (s : PState)
    (hkr : ∀ kr, s.environ "KALDI_ROOT" = some kr →
      ¬(kr ≠ "" ∧ s.fs.contains kr = true))
    (hcommon : ∀ p ∈ common_kaldi_paths w,
      ¬(s.fs.contains p = true ∧ s.fs.contains (p ++ "/src") = true)) :
    Event.guidance ∈ (setup_kaldi_environment w args s).1.events ∧
    (args.force = false →
      (setup_kaldi_environment w args s).2 = some .systemExit1) ∧
    (args.force = true →
      (setup_kaldi_environment w args s).2 = none ∧
      Event.warned "Continuing without Kaldi (--force enabled)" ∈
        (setup_kaldi_environment w args s).1.events) := by
  rw [setup_kaldi_not_found_eq w args s hkr hcommon]
  cases hf : args.force with
  | false =>
    refine ⟨?_, fun _ => ?_, fun hc => absurd hc (by simp)⟩
    · simp [kaldiNotFound, hf, errorStep, PState.emit_events]
    · simp [kaldiNotFound, hf, errorStep]
  | true =>
    refine ⟨?_, fun hc => absurd hc (by simp), fun _ => ⟨?_, ?_⟩⟩
    · simp [kaldiNotFound, hf, stepOk, PState.emit_events]
    · simp [kaldiNotFound, hf, stepOk]
    · simp [kaldiNotFound, hf, stepOk, PState.emit_events]

/-- Witness for C7: a host with no Kaldi anywhere and `--force` set. -/
theorem c7_toolchain_locator_not_found_witness :
    Event.guidance ∈
      (setup_kaldi_environment allGoodWorld argsForcePy
        (emptyState allGoodWorld)).1.events ∧
    (setup_kaldi_environment allGoodWorld argsForcePy
      (emptyState allGoodWorld)).2 = none := by
  have h := c7_toolchain_locator_not_found allGoodWorld argsForcePy
    (emptyState allGoodWorld)
    (by intro kr hk; simp [emptyState, allGoodWorld] at hk)
    (by decide)
  exact ⟨h.1, (h.2.2 rfl).1⟩

/-! ## Claim C8 -/

theorem run_command_fst_events_mono (w : World) (st : String)
    (c : List String) (d : String) (s : PState) (e : Event)
    (h : e ∈ s.events) : e ∈ (run_command w st c d s).1.events := by
  unfold run_command
  cases w.run c d <;>
    simp [stepOk, errorStep, PState.emit_events, List.mem_append, h]

theorem run_command_fst_fs (w : World) (st : String) (c : List String)
    (d : String) (s : PState) : (run_command w st c d s).1.fs = s.fs := by
  unfold run_command
  cases w.run c d <;> simp [stepOk, errorStep, PState.emit, PState.emit_fs]

theorem run_command_some_of_not_success (w : World) (st : String)
    (c : List String) (d : String) (s : PState)
    (h : w.run c d ≠ .success) :
    ∃ ex, (run_command w st c d s).2 = some ex := by
  unfold run_command
  cases hrun : w.run c d with
  | success => exact absurd hrun h
  | failed => exact ⟨_, rfl⟩
  | notFound => exact ⟨_, rfl⟩
  | interrupted => exact ⟨_, rfl⟩

theorem testBlock_mono (w : World) (st : String) (c : List String)
    (d : String) (m1 m2 : String) (s : PState) (e : Event)
    (h : e ∈ s.events) :
    e ∈ (tryStep (seqStep (run_command w st c d s)
        (fun s => stepOk (s.emit (.successMsg m1))))
      (fun s => s.emit (.warned m2))).1.events := by
  cases hr : (run_command w st c d s).2 with
  | none =>
    rw [seqStep_of_none _ _ hr]
    simp only [tryStep, stepOk, PState.emit_events, List.mem_append]
    exact Or.inl (run_command_fst_events_mono w st c d s e h)
  | some ex =>
    rw [seqStep_of_some _ _ ex hr]
    simp only [tryStep, PState.emit_events, List.mem_append]
    exact Or.inl (run_command_fst_events_mono w st c d s e h)

theorem testBlock_warned (w : World) (st : String) (c : List String)
    (d : String) (m1 m2 : String) (s : PState)
    (h : w.run c d ≠ .success) :
    Event.warned m2 ∈ (tryStep (seqStep (run_command w st c d s)
        (fun s => stepOk (s.emit (.successMsg m1))))
      (fun s => s.emit (.warned m2))).1.events := by
  obtain ⟨ex, hex⟩ := run_command_some_of_not_success w st c d s h
  rw [seqStep_of_some _ _ ex hex]
  simp [tryStep, PState.emit_events]

theorem testBlock_fs (w : World) (st : String) (c : List String)
    (d : String) (m1 m2 : String) (s : PState) :
    (tryStep (seqStep (run_command w st c d s)
        (fun s => stepOk (s.emit (.successMsg m1))))
      (fun s => s.emit (.warned m2))).1.fs = s.fs := by
  cases hr : (run_command w st c d s).2 with
  | none =>
    rw [seqStep_of_none _ _ hr]
    simp [tryStep, stepOk, PState.emit_fs, run_command_fst_fs]
  | some ex =>
    rw [seqStep_of_some _ _ ex hr]
    simp [tryStep, PState.emit_fs, run_command_fst_fs]

theorem run_tests_c_mono (w : World) (s : PState) (e : Event)
    (h : e ∈ s.events) : e ∈ (run_tests_c w s).events := by
  simp only [run_tests_c]
  split
  · exact testBlock_mono w _ _ _ _ _ s e h
  · exact h

theorem run_tests_c_fs (w : World) (s : PState) :
    (run_tests_c w s).fs = s.fs := by
  simp only [run_tests_c]
  split
  · exact testBlock_fs w _ _ _ _ _ s
  · rfl

theorem run_tests_py_mono (w : World) (args : BuildArgs) (s : PState)
    (e : Event) (h : e ∈ s.events) : e ∈ (run_tests_py w args s).events := by
  simp only [run_tests_py]
  split
  · split
    · exact testBlock_mono w _ _ _ _ _ s e h
    · exact h
  · exact h

theorem run_tests_c_of_present (w : World) (s : PState)
    (h : s.fs.contains (w.repoRoot ++ "/c") = true) :
    run_tests_c w s =
      (tryStep (seqStep (run_command w "run_tests" ["make"]
          (w.repoRoot ++ "/c") s)
          (fun s => stepOk (s.emit (.successMsg "C tests completed"))))
        (fun s => s.emit (.warned "C tests failed"))).1 := by
  have hmem : w.repoRoot ++ "/c" ∈ s.fs := by simpa using h
  simp [run_tests_c, hmem]

theorem run_tests_py_of_present (w : World) (args : BuildArgs) (s : PState)
    (hp : args.python = true)
    (h : s.fs.contains (w.repoRoot ++ "/python/test") = true) :
    run_tests_py w args s =
      (tryStep (seqStep (run_command w "run_tests"
          [w.pyExe, "-c", "import vosk; print(\x27Python bindings work!\x27)"]
          w.repoRoot s)
          (fun s => stepOk (s.emit (.successMsg "Python tests completed"))))
        (fun s => s.emit (.warned "Python tests failed"))).1 := by
  have hmem : w.repoRoot ++ "/python/test" ∈ s.fs := by simpa using h
  simp [run_tests_py, hp, hmem]

theorem run_tests_c_of_missing (w : World) (s : PState)
    (h : s.fs.contains (w.repoRoot ++ "/c") = false) :
    run_tests_c w s = s := by
  have hmem : ¬(w.repoRoot ++ "/c" ∈ s.fs) := by simpa using h
  simp [run_tests_c, hmem]

theorem run_tests_py_of_missing (w : World) (args : BuildArgs) (s : PState)
    (h : s.fs.contains (w.repoRoot ++ "/python/test") = false) :
    run_tests_py w args s = s := by
  have hmem : ¬(w.repoRoot ++ "/python/test" ∈ s.fs) := by simpa using h
  unfold run_tests_py
  by_cases hp : args.python = true <;> simp [hp, hmem]

/-- C8: with tests requested, the Test Runner never raises — every
failure of the C test build or of the Python import smoke check
(nonzero exit, missing command, or any other exception of the inner
call) is downgraded to a warning — and a missing test directory is
skipped silently, leaving nothing in the trace beyond the stage log. -/
theorem c8_test_runner_best_effort (w : World) (args : BuildArgs)
    (s : PState) (h : args.test = true) :
    (run_tests w args s).2 = none ∧
    (s.fs.contains (w.repoRoot ++ "/c") = true →
      w.run ["make"] (w.repoRoot ++ "/c") ≠ .success →
      Event.warned "C tests failed" ∈ (run_tests w args s).1.events) ∧
    (args.python = true →
      s.fs.contains (w.repoRoot ++ "/python/test") = true →
      w.run [w.pyExe, "-c", "import vosk; print(\x27Python bindings work!\x27)"]
        w.repoRoot ≠ .success →
      Event.warned "Python tests failed" ∈ (run_tests w args s).1.events) ∧
    (s.fs.contains (w.repoRoot ++ "/c") = false →
      s.fs.contains (w.repoRoot ++ "/python/test") = false →
      (run_tests w args s).1.events = s.events ++ [.stageEnter "run_tests"]) := by
  simp only [run_tests, h, Bool.not_true, Bool.false_eq_true, if_neg,
    not_false_iff, stepOk]
  refine ⟨trivial, ?_, ?_, ?_⟩
  · intro hc hrun
    apply run_tests_py_mono
    rw [run_tests_c_of_present w _ (by rw [PState.emit_fs]; exact hc)]
    exact testBlock_warned w _ _ _ _ _ _ hrun
  · intro hp hc hrun
    rw [run_tests_py_of_present w args _ hp
      (by rw [run_tests_c_fs, PState.emit_fs]; exact hc)]
    exact testBlock_warned w _ _ _ _ _ _ hrun
  · intro hc hpc
    rw [run_tests_py_of_missing w args _
        (by rw [run_tests_c_fs, PState.emit_fs]; exact hpc),
      run_tests_c_of_missing w _ (by rw [PState.emit_fs]; exact hc)]
    exact PState.emit_events s _

/-- Witness for C8: a failing C test build produces a warning and no
exception. -/
theorem c8_test_runner_best_effort_witness :
    (run_tests worldCTestFails argsTest (emptyState worldCTestFails)).2 = none ∧
    Event.warned "C tests failed" ∈
      (run_tests worldCTestFails argsTest (emptyState worldCTestFails)).1.events := by
  have h := c8_test_runner_best_effort worldCTestFails argsTest
    (emptyState worldCTestFails) rfl
  exact ⟨h.1, h.2.1 (by decide) (by decide)⟩

/-! ## Claim C1 -/

/-- Counterexample for C1: with `--force` set (bindings-only, defaults
otherwise), a nonzero exit of the Python binding build subprocess is
still fatal — the run exits 1 and never reaches the summary, where the
claim predicts a warning and continuation. -/
theorem c1_binding_failure_counterexample :
    (mainModel worldPyBuildFails (some argsForcePy)).2 = 1 ∧
    Event.printedSummary ∉ (mainModel worldPyBuildFails (some argsForcePy)).1.events := by
  decide

/-- C1 amended: a nonzero exit from a binding's own build subprocess is
fatal (`sys.exit(1)`) on every binding path — Python, Java and C# alike —
regardless of `forceContinue`; only a missing Java/C# toolchain (probe
failure, not build failure) is downgraded to a warning. -/
theorem c1_binding_build_failure_always_fatal :
    (∀ (w : World) (args : BuildArgs) (s : PState), args.python = true →
      w.run [w.pyExe, "vosk_builder.py"] (w.repoRoot ++ "/python") = .failed →
      (build_python_bindings w args s).2 = some .systemExit1) ∧
    (∀ (w : World) (args : BuildArgs) (s : PState), args.java = true →
      w.toolOk "javac" = true → w.toolOk "jar" = true →
      w.run ["make"] (w.repoRoot ++ "/java") = .failed →
      (build_java_bindings w args s).2 = some .systemExit1) ∧
    (∀ (w : World) (args : BuildArgs) (s : PState), args.csharp = true →
      w.toolOk "dotnet" = true →
      w.run ["dotnet", "build"] (w.repoRoot ++ "/csharp") = .failed →
      (build_csharp_bindings w args s).2 = some .systemExit1) := by
  refine ⟨?_, ?_, ?_⟩
  · intro w args s hp hrun
    simp only [build_python_bindings, hp, Bool.not_true, Bool.false_eq_true,
      if_neg, not_false_iff]
    have hcmd : (run_command w "build_python_bindings"
        [w.pyExe, "vosk_builder.py"] (w.repoRoot ++ "/python")
        ((s.emit (.stageEnter "build_python_bindings")))).2 =
        some .systemExit1 := by
      simp [run_command, hrun, errorStep]
    rw [seqStep_of_some _ _ _ hcmd]
  · intro w args s hj h1 h2 hrun
    simp only [build_java_bindings, hj, Bool.not_true, Bool.false_eq_true,
      if_neg, not_false_iff, h1, h2]
    simp [run_command, hrun, errorStep]
  · intro w args s hc h1 hrun
    simp only [build_csharp_bindings, hc, Bool.not_true, Bool.false_eq_true,
      if_neg, not_false_iff, h1]
    simp [run_command, hrun, errorStep]

/-- Witness for C1 (amended) at concrete hosts where exactly the
respective binding build fails. -/
theorem c1_binding_build_failure_always_fatal_witness :
    (build_python_bindings worldPyBuildFails argsForcePy
      (emptyState worldPyBuildFails)).2 = some .systemExit1 ∧
    (build_java_bindings worldJavaBuildFails argsJava
      (emptyState worldJavaBuildFails)).2 = some .systemExit1 ∧
    (build_csharp_bindings worldCsharpBuildFails argsCsharp
      (emptyState worldCsharpBuildFails)).2 = some .systemExit1 := by
  have h := c1_binding_build_failure_always_fatal
  exact ⟨h.1 worldPyBuildFails argsForcePy (emptyState worldPyBuildFails)
      rfl (by decide),
    h.2.1 worldJavaBuildFails argsJava (emptyState worldJavaBuildFails)
      rfl rfl rfl (by decide),
    h.2.2 worldCsharpBuildFails argsCsharp (emptyState worldCsharpBuildFails)
      rfl rfl (by decide)⟩

/-! ## Claim C3 -/

/-- C3 (code bug): an interrupt signal (`KeyboardInterrupt`) arriving
during the test stage's C-test subprocess is swallowed by the bare
`except:` in `run_tests` and downgraded to the "C tests failed" warning;
the pipeline then continues, prints the success summary and exits 0 —
contradicting the claim (and the clear intent of the dedicated
`KeyboardInterrupt` handler in `VoskBuilder.build`) that an interrupt is
always fatal with a distinct classification and no success summary. -/
theorem c3_interrupt_in_tests_downgraded :
    (mainModel worldInterruptInTests (some argsTest)).2 = 0 ∧
    Event.warned "C tests failed" ∈
      (mainModel worldInterruptInTests (some argsTest)).1.events ∧
    Event.printedSummary ∈
      (mainModel worldInterruptInTests (some argsTest)).1.events ∧
    Event.errorMsg "Build interrupted by user" ∉
      (mainModel worldInterruptInTests (some argsTest)).1.events := by
  decide

/-! ## Claim C10 -/

theorem seqStep_print_summary_mem (r : PState × Option Exc)
    (h : (seqStep r print_summary).2 = none) :
    Event.printedSummary ∈ (seqStep r print_summary).1.events := by
  have h0 := seqStep_snd_none _ _ h
  rw [seqStep_of_none _ _ h0]
  exact mem_emit_self _ _

theorem buildRun_none_summary (w : World) (args : BuildArgs) (s0 : PState)
    (h : (buildRun w args s0).2 = none) :
    Event.printedSummary ∈ (buildRun w args s0).1.events := by
  unfold buildRun at h ⊢
  have h2 := seqStep_snd_none _ _ h
  rw [seqStep_of_none _ _ h2] at h ⊢
  unfold buildTail at h ⊢
  exact seqStep_print_summary_mem _ h

theorem buildTop_exit (w : World) (args : BuildArgs) (s0 : PState) :
    ((buildTop w args s0).2 = 0 →
      (buildTop w args s0).1 = (buildRun w args s0).1 ∧
      (buildRun w args s0).2 = none) ∧
    ((buildTop w args s0).2 = 0 ∨ (buildTop w args s0).2 = 1) := by
  unfold buildTop
  rcases hb : buildRun w args s0 with ⟨s, e⟩
  cases e with
  | none => simp
  | some ex => cases ex <;> simp

/-- C10: a zero exit code occurs only after the success summary was
printed: argument-parsing failure exits 2 with no stage run, every fatal
path inside the builder exits 1, and a run of the builder exits either 0
or 1 — with 0 implying the summary banner is in the trace. -/
theorem c10_exit_zero_iff_summary (w : World) (p : Option BuildArgs) :
    ((mainModel w p).2 = 0 →
      Event.printedSummary ∈ (mainModel w p).1.events) ∧
    (p = none → (mainModel w p).2 = 2 ∧ (mainModel w p).1.events = []) ∧
    (∀ args, p = some args →
      (mainModel w p).2 = 0 ∨ (mainModel w p).2 = 1) := by
  cases p with
  | none =>
    refine ⟨?_, fun _ => ⟨rfl, rfl⟩, fun args hx => Option.noConfusion hx⟩
    intro h
    exact absurd h (by simp [mainModel])
  | some args =>
    simp only [mainModel]
    refine ⟨?_, fun hx => Option.noConfusion hx,
      fun a _ => (buildTop_exit w args _).2⟩
    intro h
    obtain ⟨heq, hnone⟩ := (buildTop_exit w args _).1 h
    rw [heq]
    exact buildRun_none_summary w args _ hnone

/-- Witness for C10: a fully successful bindings-only run exits 0 with
the summary printed, and a parse failure exits 2. -/
theorem c10_exit_zero_iff_summary_witness :
    Event.printedSummary ∈
      (mainModel allGoodWorld (some argsBindingsOnly)).1.events ∧
    (mainModel allGoodWorld none).2 = 2 := by
  exact ⟨(c10_exit_zero_iff_summary allGoodWorld (some argsBindingsOnly)).1
      (by decide),
    ((c10_exit_zero_iff_summary allGoodWorld none).2.1 rfl).1⟩

/-! ## Claim C9 -/

theorem buildRun_chk_fail (w : World) (args : BuildArgs) (s0 : PState)
    (hc : (check_dependencies w args s0).2 = some .systemExit1) :
    buildRun w args s0 = ((check_dependencies w args s0).1, some .systemExit1) := by
  unfold buildRun
  rw [seqStep_of_some (check_dependencies w args s0) _ _ hc]
  exact seqStep_of_some _ _ _ rfl

theorem buildTop_missing_tool (w : World) (args : BuildArgs) (s0 : PState)
    (hs0 : s0.events = [])
    (h : ∃ td ∈ required_tools, w.toolOk td.1 = false) :
    (buildTop w args s0).2 = 1 ∧
    ∀ e ∈ (buildTop w args s0).1.events,
      e = .stageEnter "check_dependencies" ∨ (∃ t, e = .probe t) ∨
      (∃ m, e = .successMsg m) ∨ (∃ m, e = .errorMsg m) := by
  have hc := check_dependencies_fail_eq w args s0 h
  have hc2 : (check_dependencies w args s0).2 = some .systemExit1 := by
    rw [hc]; rfl
  have hb := buildRun_chk_fail w args s0 hc2
  unfold buildTop
  rw [hb]
  refine ⟨rfl, ?_⟩
  intro e he
  rw [hc] at he
  simp only [errorStep, PState.emit_events, List.mem_append,
    List.mem_singleton] at he
  rcases he with he | rfl
  · rcases probeTools_events_shape w _ _ e he with h1 | h2 | h3
    · simp only [PState.emit_events, hs0, List.nil_append,
        List.mem_singleton] at h1
      exact Or.inl h1
    · exact Or.inr (Or.inl h2)
    · exact Or.inr (Or.inr (Or.inl h3))
  · exact Or.inr (Or.inr (Or.inr ⟨_, rfl⟩))

/-- C9: the required-tool check is unconditional — whatever the
configuration (`--force` and `--bindings-only` included), a missing
required tool makes the run exit 1 having entered no stage but the
dependency check, run no subprocess, and printed no summary. -/
theorem c9_required_tool_check_unconditional (w : World) (args : BuildArgs)
    (h : ∃ td ∈ required_tools, w.toolOk td.1 = false) :
    (mainModel w (some args)).2 = 1 ∧
    Event.printedSummary ∉ (mainModel w (some args)).1.events ∧
    (∀ n, Event.stageEnter n ∈ (mainModel w (some args)).1.events →
      n = "check_dependencies") ∧
    (∀ st c d, Event.ranCmd st c d ∉ (mainModel w (some args)).1.events) := by
  simp only [mainModel]
  obtain ⟨h1, h2⟩ := buildTop_missing_tool w args
    (if args.clean = true then
      { environ := w.environ,
        fs := List.filter (fun p => !(build_dir w).isPrefixOf p) w.fs,
        events := [] }
    else { environ := w.environ, fs := w.fs, events := [] })
    (by split <;> rfl) h
  refine ⟨h1, ?_, ?_, ?_⟩
  · intro hmem
    rcases h2 _ hmem with hx | ⟨t, hx⟩ | ⟨m, hx⟩ | ⟨m, hx⟩ <;> cases hx
  · intro n hmem
    rcases h2 _ hmem with hx | ⟨t, hx⟩ | ⟨m, hx⟩ | ⟨m, hx⟩ <;> cases hx
    rfl
  · intro st c d hmem
    rcases h2 _ hmem with hx | ⟨t, hx⟩ | ⟨m, hx⟩ | ⟨m, hx⟩ <;> cases hx

/-- Witness for C9: `--force --bindings-only` with `make` missing still
exits 1 without reaching any later stage. -/
theorem c9_required_tool_check_unconditional_witness :
    (mainModel worldNoMake (some { defaultArgs with
      bindings_only := true, force := true })).2 = 1 ∧
    Event.printedSummary ∉ (mainModel worldNoMake (some { defaultArgs with
      bindings_only := true, force := true })).1.events := by
  have h := c9_required_tool_check_unconditional worldNoMake
    { defaultArgs with bindings_only := true, force := true }
    ⟨("make", "Make (required for building)"), by decide, by decide⟩
  exact ⟨h.1, h.2.1⟩

/-! ## Claim C6 -/

theorem nonNative_ranCmd (st : String) (c : List String) (d : String)
    (h : (st == "setup_kaldi_environment" || st == "build_cpp_library") = false) :
    nonNativeEvent (.ranCmd st c d) = true := by
  have he : nonNativeEvent (.ranCmd st c d) =
      !(st == "setup_kaldi_environment" || st == "build_cpp_library") := rfl
  rw [he, h]
  rfl

theorem EventsOk.withFs {s : PState} (hs : EventsOk s) (fs2 : List String) :
    EventsOk { s with fs := fs2 } := hs

theorem EventsOk.emit {s : PState} {ev : Event} (hs : EventsOk s)
    (hev : nonNativeEvent ev = true) : EventsOk (s.emit ev) := by
  intro e he
  simp only [PState.emit_events, List.mem_append, List.mem_singleton] at he
  rcases he with he | rfl
  · exact hs e he
  · exact hev

theorem seqStep_eventsOk (r : PState × Option Exc) (f : Step)
    (hr : EventsOk r.1) (hf : ∀ s, EventsOk s → EventsOk (f s).1) :
    EventsOk (seqStep r f).1 := by
  cases h : r.2 with
  | none => rw [seqStep_of_none _ _ h]; exact hf _ hr
  | some ex => rw [seqStep_of_some _ _ _ h]; exact hr

theorem run_command_eventsOk (w : World) (st : String) (c : List String)
    (d : String) (s : PState) (hst : nonNativeEvent (.ranCmd st c d) = true)
    (hs : EventsOk s) : EventsOk (run_command w st c d s).1 := by
  cases hrun : w.run c d <;> simp only [run_command, hrun]
  · exact hs.emit hst
  · exact (hs.emit hst).emit (by rfl)
  · exact (hs.emit hst).emit (by rfl)
  · exact hs.emit hst

theorem installPackages_eventsOk (w : World) (l : List String) :
    KeepsEventsOk (installPackages w l) := by
  induction l with
  | nil => intro s hs; exact hs
  | cons p rest ih =>
    intro s hs
    unfold installPackages
    split
    · exact ih _ (hs.emit rfl)
    · exact seqStep_eventsOk _ _
        (run_command_eventsOk w _ _ _ s (nonNative_ranCmd _ _ _ (by decide)) hs) ih

theorem check_dependencies_eventsOk (w : World) (args : BuildArgs) :
    KeepsEventsOk (check_dependencies w args) := by
  intro s hs
  simp only [check_dependencies]
  have hs1 : EventsOk (s.emit (.stageEnter "check_dependencies")) :=
    hs.emit (by decide)
  have hpr : EventsOk
      (probeTools w required_tools (s.emit (.stageEnter "check_dependencies"))).1 := by
    intro e he
    rcases probeTools_events_shape w _ _ e he with h1 | ⟨t, rfl⟩ | ⟨m, rfl⟩
    · exact hs1 e h1
    · rfl
    · rfl
  split
  · exact hpr.emit (by rfl)
  · apply seqStep_eventsOk
    · split
      · exact installPackages_eventsOk w python_packages _ hpr
      · exact hpr
    · intro s2 hs2; exact hs2.emit (by rfl)

theorem setup_build_environment_eventsOk (w : World) (args : BuildArgs)
    (s : PState) (hs : EventsOk s) :
    EventsOk (setup_build_environment w args s).1 := by
  intro e he
  have hev : (setup_build_environment w args s).1.events =
      s.events ++ [.stageEnter "setup_build_environment"] := rfl
  rw [hev] at he
  rcases List.mem_append.mp he with h1 | h1
  · exact hs e h1
  · rw [List.mem_singleton.mp h1]; decide

theorem build_python_bindings_eventsOk (w : World) (args : BuildArgs) :
    KeepsEventsOk (build_python_bindings w args) := by
  intro s hs
  simp only [build_python_bindings]
  split
  · exact hs
  · apply seqStep_eventsOk
    · exact run_command_eventsOk w _ _ _ _ (nonNative_ranCmd _ _ _ (by decide))
        (hs.emit (by decide))
    · intro s2 hs2
      split
      · exact run_command_eventsOk w _ _ _ _ (nonNative_ranCmd _ _ _ (by decide)) hs2
      · exact run_command_eventsOk w _ _ _ _ (nonNative_ranCmd _ _ _ (by decide)) hs2

theorem build_java_bindings_eventsOk (w : World) (args : BuildArgs) :
    KeepsEventsOk (build_java_bindings w args) := by
  intro s hs
  simp only [build_java_bindings]
  split
  · exact hs
  · split
    · exact ((hs.emit (by decide)).emit (by rfl)).emit (by rfl)
    · split
      · exact (((hs.emit (by decide)).emit (by rfl)).emit (by rfl)).emit (by rfl)
      · exact run_command_eventsOk w _ _ _ _ (nonNative_ranCmd _ _ _ (by decide))
          (((hs.emit (by decide)).emit (by rfl)).emit (by rfl))

theorem build_csharp_bindings_eventsOk (w : World) (args : BuildArgs) :
    KeepsEventsOk (build_csharp_bindings w args) := by
  intro s hs
  simp only [build_csharp_bindings]
  split
  · exact hs
  · split
    · exact ((hs.emit (by decide)).emit (by rfl)).emit (by rfl)
    · exact run_command_eventsOk w _ _ _ _ (nonNative_ranCmd _ _ _ (by decide))
        ((hs.emit (by decide)).emit (by rfl))

theorem testBlock_eventsOk (w : World) (st : String) (c : List String)
    (d : String) (m1 m2 : String) (s : PState)
    (hst : nonNativeEvent (.ranCmd st c d) = true) (hs : EventsOk s) :
    EventsOk (tryStep (seqStep (run_command w st c d s)
        (fun s => stepOk (s.emit (.successMsg m1))))
      (fun s => s.emit (.warned m2))).1 := by
  have hrc := run_command_eventsOk w st c d s hst hs
  cases hr : (run_command w st c d s).2 with
  | none =>
    rw [seqStep_of_none _ _ hr]
    exact hrc.emit (by rfl)
  | some ex =>
    rw [seqStep_of_some _ _ _ hr]
    exact hrc.emit (by rfl)

theorem run_tests_c_eventsOk (w : World) (s : PState) (hs : EventsOk s) :
    EventsOk (run_tests_c w s) := by
  simp only [run_tests_c]
  split
  · exact testBlock_eventsOk w _ _ _ _ _ s (nonNative_ranCmd _ _ _ (by decide)) hs
  · exact hs

theorem run_tests_py_eventsOk (w : World) (args : BuildArgs) (s : PState)
    (hs : EventsOk s) : EventsOk (run_tests_py w args s) := by
  simp only [run_tests_py]
  split
  · split
    · exact testBlock_eventsOk w _ _ _ _ _ s (nonNative_ranCmd _ _ _ (by decide)) hs
    · exact hs
  · exact hs

theorem run_tests_eventsOk (w : World) (args : BuildArgs) :
    KeepsEventsOk (run_tests w args) := by
  intro s hs
  simp only [run_tests]
  split
  · exact hs
  · exact run_tests_py_eventsOk w args _
      (run_tests_c_eventsOk w _ (hs.emit (by decide)))

theorem installStage_eventsOk (w : World) (args : BuildArgs) :
    KeepsEventsOk (installStage w args) := by
  intro s hs
  simp only [installStage]
  split
  · exact hs
  · split
    · apply seqStep_eventsOk
      · exact run_command_eventsOk w _ _ _ _ (nonNative_ranCmd _ _ _ (by decide))
          (hs.emit (by decide))
      · intro s2 hs2; exact hs2.emit (by rfl)
    · intro e he
      have hshape : e ∈ s.events ∨ e = Event.stageEnter "install" ∨
          e = Event.successMsg "Installation completed" := by
        repeat' split at he
        all_goals
          simp only [stepOk, PState.emit_events, List.mem_append,
            List.mem_singleton] at he
        all_goals tauto
      rcases hshape with h1 | rfl | rfl
      · exact hs e h1
      · decide
      · rfl

theorem buildTail_eventsOk (w : World) (args : BuildArgs)
    (hb : args.bindings_only = true) : KeepsEventsOk (buildTail w args) := by
  intro s hs
  simp only [buildTail, hb, if_pos]
  apply seqStep_eventsOk _ _ ?_ (fun s2 hs2 => hs2.emit (by rfl))
  apply seqStep_eventsOk _ _ ?_ (installStage_eventsOk w args)
  apply seqStep_eventsOk _ _ ?_ (run_tests_eventsOk w args)
  apply seqStep_eventsOk _ _ ?_ (build_csharp_bindings_eventsOk w args)
  apply seqStep_eventsOk _ _ ?_ (build_java_bindings_eventsOk w args)
  apply seqStep_eventsOk _ _ ?_ (build_python_bindings_eventsOk w args)
  exact setup_build_environment_eventsOk w args s hs

theorem buildTop_eventsOk_bindingsOnly (w : World) (args : BuildArgs)
    (s0 : PState) (hb : args.bindings_only = true) (hs : EventsOk s0) :
    EventsOk (buildTop w args s0).1 := by
  have hrun : EventsOk (buildRun w args s0).1 := by
    unfold buildRun
    apply seqStep_eventsOk _ _ ?_ (buildTail_eventsOk w args hb)
    apply seqStep_eventsOk _ _ (check_dependencies_eventsOk w args s0 hs) ?_
    intro s2 hs2
    simp only [hb, if_pos]
    exact hs2
  unfold buildTop
  rcases hbr : buildRun w args s0 with ⟨s, e⟩
  rw [hbr] at hrun
  cases e with
  | none => exact hrun
  | some ex =>
    cases ex with
    | systemExit1 => exact hrun
    | keyboardInterrupt => exact hrun.emit (by rfl)
    | buildError m => exact hrun.emit (by rfl)
    | otherExc m => exact hrun.emit (by rfl)

/-- C6: with `bindingsOnly` set the pipeline never invokes the Toolchain
Locator or the Backend Driver — no trace event (stage entry or
subprocess call) is attributable to either — and a fully successful
bindings-only run still reaches the summary with exit 0. -/
theorem c6_bindings_only_skips_native :
    (∀ (w : World) (args : BuildArgs), args.bindings_only = true →
      ∀ e ∈ (mainModel w (some args)).1.events, nonNativeEvent e = true) ∧
    ((mainModel allGoodWorld (some argsBindingsOnly)).2 = 0 ∧
      Event.printedSummary ∈
        (mainModel allGoodWorld (some argsBindingsOnly)).1.events) := by
  constructor
  · intro w args hb
    simp only [mainModel]
    apply buildTop_eventsOk_bindingsOnly w args _ hb
    intro e he
    split at he <;> exact absurd he (List.not_mem_nil e)
  · exact ⟨by decide, by decide⟩

/-- Witness for C6: at the concrete bindings-only run, the theorem
yields that the trace's dependency-check stage event is non-native and
the run exits 0. -/
theorem c6_bindings_only_skips_native_witness :
    nonNativeEvent (Event.stageEnter "check_dependencies") = true ∧
    (mainModel allGoodWorld (some argsBindingsOnly)).2 = 0 := by
  have h := c6_bindings_only_skips_native
  exact ⟨h.1 allGoodWorld argsBindingsOnly rfl _ (by decide), h.2.1⟩
